import Mathlib

/-!
Verification development for the ror1 data-import pipeline.

The Rust sources embedded here are:
  * `src/import/mod.rs` — the import orchestrator (`import_data`), which reads the
    source file, decodes it, accumulates rows in three vector groups and stores
    them in batches of 200, with an early-termination guard at index 1505;
  * `src/transform/org_table_code.rs` — the DDL of the nine normalized tables,
    transcribed as data;
  * `src/setup/log_helper.rs` — `get_log_file_path` / `setup_log`;
  * `src/setup/mod.rs` — `is_compliant_file_name` / `get_data_date`.

The modules `ror_json_models.rs` and `ror_data_vectors.rs` (the record model,
the three accumulator groups with their `add_*` and `store_data` methods, and
`extract_id_from`) are referenced by `import/mod.rs` but their sources are not
part of the provided tree; those definitions are modelled from the spec and
carry a doc comment saying so.

File I/O, JSON decoding and the SQL connection are external effects; they are
modelled as explicit parameters (a read result, a decode function, and a
storage oracle `st : Nat → Bool` giving the success of each successive insert
statement).  The database is modelled as the lists of rows successfully
inserted into each table, together with bookkeeping: the indices of failed
statements, a log of flush events and a log of processed record identifiers.
-/

namespace Ror1

/-- Modelled from `error_defs` (not under the provided sources): the payload of
an I/O failure, reduced to its message. -/
structure IoError where
  msg : String
deriving DecidableEq

/-- Modelled from `error_defs`: the payload of a serde decode failure. -/
structure DecodeError where
  msg : String
deriving DecidableEq

/-- The application error type: `import_data` returns `AppError.IoErr` when the
source file cannot be read and `AppError.SdErr` when the JSON fails to parse. -/
inductive AppError where
  | IoErr (e : IoError)
  | SdErr (e : DecodeError)
  | LgErr (msg : String)
  | CsErr (msg : String)
deriving DecidableEq

/-- Modelled from the spec: name-role tags of a name entry (label / alias /
acronym), §3 of the spec; the org DDL counts each kind separately. -/
inductive NameType where
  | label
  | alias
  | acronym
deriving DecidableEq

/-- Modelled from the spec: the external-identifier schemes counted by the
admin table (`n_isni`, `n_grid`, `n_fundref`, `n_wikidata`). -/
inductive IdScheme where
  | isni
  | grid
  | fundref
  | wikidata
deriving DecidableEq

/-- Modelled from the spec: the link kinds counted by the admin table
(`n_wikipaedia`, `n_website`). -/
inductive LinkKind where
  | wikipaedia
  | website
deriving DecidableEq

/-- Modelled from the spec: relationship kinds (parent / child / related /
predecessor / successor), §3 of the spec. -/
inductive RelKind where
  | related
  | parent
  | child
  | successor
  | predecessor
deriving DecidableEq

/-- Modelled from the spec, §3: one name entry of a source record — a value, a
name-role tag, whether it is the ROR display name, and optional language and
script codes. -/
structure NameEntry where
  value : String
  ntype : NameType
  is_ror_name : Bool
  lang : Option String
  script : Option String
deriving DecidableEq

/-- Modelled from the spec, §3/§6: one location entry (geocoded place id,
display name, latitude, longitude, country code, country name).  The numeric
geocode payloads are abstracted to integers; their values never influence the
claims, only the number of entries does. -/
structure LocationEntry where
  geonames_id : Option Int
  geonames_name : String
  lat : Option Int
  lng : Option Int
  country_code : Option String
  country_name : Option String
deriving DecidableEq

/-- Modelled from the spec, §3: one external-identifier entry. -/
structure ExternalIdEntry where
  id_type : IdScheme
  id_value : String
  is_preferred : Bool
deriving DecidableEq

/-- Modelled from the spec, §3: one link entry. -/
structure LinkEntry where
  link_type : LinkKind
  link : String
deriving DecidableEq

/-- Modelled from the spec, §3: one relationship entry. -/
structure RelationshipEntry where
  rel_type : RelKind
  related_id : String
  related_label : String
deriving DecidableEq

/-- Modelled from the spec, §3 (`ror_json_models::RorRecord` is not under the
provided sources): the typed decoded representation of one source JSON record. -/
structure RorRecord where
  id : String
  status : String
  established : Option Int
  names : List NameEntry
  locations : List LocationEntry
  external_ids : List ExternalIdEntry
  links : List LinkEntry
  types : List String
  relationships : List RelationshipEntry
  domains : List String
deriving DecidableEq

/-- Modelled from the spec, §4.1 (`ror_data_vectors::extract_id_from` is not
under the provided sources): the canonical short identifier is the trailing
path segment of the full URI identifier — the characters after the last `/`;
when the input contains no separator the whole input is returned as the
best-effort trailing token. -/
def extract_id_from (full_id : String) : String :=
  String.mk ((full_id.data.reverse.takeWhile (fun c => c != '/')).reverse)

/-- The canonical identifier of a record, as computed at line 75 of
`import/mod.rs`: `extract_id_from(&r.id)`. -/
def dbIdOf (r : RorRecord) : String :=
  extract_id_from r.id

/-! ## Row types of the nine target tables (column layout from
`transform/org_table_code.rs`, which the spec names as the canonical
column reference for the entities of §3) -/

structure CoreRow where
  id : String
  ror_full_id : String
  ror_name : String
  status : String
  established : Option Int
  location : Option String
  country_code : Option String
deriving DecidableEq

structure AdminRow where
  id : String
  ror_name : String
  n_locs : Nat
  n_labels : Nat
  n_aliases : Nat
  n_acronyms : Nat
  n_names : Nat
  n_langcodes : Nat
  n_isni : Nat
  n_grid : Nat
  n_fundref : Nat
  n_wikidata : Nat
  n_wikipaedia : Nat
  n_website : Nat
  n_types : Nat
  n_relrels : Nat
  n_parrels : Nat
  n_chrels : Nat
  n_sucrels : Nat
  n_predrels : Nat
  n_doms : Nat
deriving DecidableEq

structure NameRow where
  id : String
  value : String
  name_type : NameType
  is_ror_name : Bool
  lang_code : Option String
  script_code : Option String
deriving DecidableEq

structure LocationRow where
  id : String
  ror_name : String
  geonames_id : Option Int
  geonames_name : String
  lat : Option Int
  lng : Option Int
  country_code : Option String
  country_name : Option String
deriving DecidableEq

structure ExternalIdRow where
  id : String
  ror_name : String
  id_type : IdScheme
  id_value : String
  is_preferred : Bool
deriving DecidableEq

structure LinkRow where
  id : String
  ror_name : String
  link_type : LinkKind
  link : String
deriving DecidableEq

structure TypeRow where
  id : String
  ror_name : String
  org_type : String
deriving DecidableEq

structure RelRow where
  id : String
  ror_name : String
  rel_type : RelKind
  related_id : String
  related_name : String
deriving DecidableEq

structure DomainRow where
  id : String
  ror_name : String
  domain : String
deriving DecidableEq

/-- Modelled from the spec: the display name of a record is the value of the
name entry flagged as the ROR name (empty when absent). -/
def rorNameOf (r : RorRecord) : String :=
  match r.names.find? (fun n => n.is_ror_name) with
  | some n => n.value
  | none => ""

/-- Modelled from the spec, §3/§6: the single `core_data` row emitted for a
record — identifier, full identifier, display name, status, establishment
year, and the primary (first) location's text and country code. -/
def coreRowOf (r : RorRecord) (d : String) : CoreRow :=
  { id := d
  , ror_full_id := r.id
  , ror_name := rorNameOf r
  , status := r.status
  , established := r.established
  , location := r.locations.head?.map (fun loc => loc.geonames_name)
  , country_code := r.locations.head?.bind (fun loc => loc.country_code) }

/-- Modelled from the spec, §3/§6: the single `admin_data` row emitted for a
record, with one integer counter per repeating category, each computed from
the record's own collections. -/
def adminRowOf (r : RorRecord) (d : String) : AdminRow :=
  { id := d
  , ror_name := rorNameOf r
  , n_locs := r.locations.length
  , n_labels := (r.names.filter (fun n => n.ntype == NameType.label)).length
  , n_aliases := (r.names.filter (fun n => n.ntype == NameType.alias)).length
  , n_acronyms := (r.names.filter (fun n => n.ntype == NameType.acronym)).length
  , n_names := r.names.length
  , n_langcodes := (r.names.filter (fun n => n.lang.isSome)).length
  , n_isni := (r.external_ids.filter (fun e => e.id_type == IdScheme.isni)).length
  , n_grid := (r.external_ids.filter (fun e => e.id_type == IdScheme.grid)).length
  , n_fundref := (r.external_ids.filter (fun e => e.id_type == IdScheme.fundref)).length
  , n_wikidata := (r.external_ids.filter (fun e => e.id_type == IdScheme.wikidata)).length
  , n_wikipaedia := (r.links.filter (fun l => l.link_type == LinkKind.wikipaedia)).length
  , n_website := (r.links.filter (fun l => l.link_type == LinkKind.website)).length
  , n_types := r.types.length
  , n_relrels := (r.relationships.filter (fun x => x.rel_type == RelKind.related)).length
  , n_parrels := (r.relationships.filter (fun x => x.rel_type == RelKind.parent)).length
  , n_chrels := (r.relationships.filter (fun x => x.rel_type == RelKind.child)).length
  , n_sucrels := (r.relationships.filter (fun x => x.rel_type == RelKind.successor)).length
  , n_predrels := (r.relationships.filter (fun x => x.rel_type == RelKind.predecessor)).length
  , n_doms := r.domains.length }

/-- Modelled from the spec, §3/§6: one `names` row per name entry. -/
def nameRowsOf (r : RorRecord) (d : String) : List NameRow :=
  r.names.map (fun n =>
    { id := d, value := n.value, name_type := n.ntype, is_ror_name := n.is_ror_name
    , lang_code := n.lang, script_code := n.script })

/-- Modelled from the spec, §3/§6: one `locations` row per location entry. -/
def locationRowsOf (r : RorRecord) (d : String) : List LocationRow :=
  r.locations.map (fun loc =>
    { id := d, ror_name := rorNameOf r, geonames_id := loc.geonames_id
    , geonames_name := loc.geonames_name, lat := loc.lat, lng := loc.lng
    , country_code := loc.country_code, country_name := loc.country_name })

/-- Modelled from the spec, §3/§6: one `external_ids` row per entry. -/
def externalIdRowsOf (r : RorRecord) (d : String) : List ExternalIdRow :=
  r.external_ids.map (fun e =>
    { id := d, ror_name := rorNameOf r, id_type := e.id_type
    , id_value := e.id_value, is_preferred := e.is_preferred })

/-- Modelled from the spec, §3/§6: one `links` row per entry. -/
def linkRowsOf (r : RorRecord) (d : String) : List LinkRow :=
  r.links.map (fun l =>
    { id := d, ror_name := rorNameOf r, link_type := l.link_type, link := l.link })

/-- Modelled from the spec, §3/§6: one `type` row per organization type. -/
def typeRowsOf (r : RorRecord) (d : String) : List TypeRow :=
  r.types.map (fun t => { id := d, ror_name := rorNameOf r, org_type := t })

/-- Modelled from the spec, §3/§6: one `relationships` row per entry. -/
def relationshipRowsOf (r : RorRecord) (d : String) : List RelRow :=
  r.relationships.map (fun x =>
    { id := d, ror_name := rorNameOf r, rel_type := x.rel_type
    , related_id := x.related_id, related_name := x.related_label })

/-- Modelled from the spec, §3/§6: one `domains` row per domain string. -/
def domainRowsOf (r : RorRecord) (d : String) : List DomainRow :=
  r.domains.map (fun t => { id := d, ror_name := rorNameOf r, domain := t })

/-! ## The three accumulator groups

`ror_data_vectors.rs` is not under the provided sources; the groups and their
`new` / `add_*` / `store_data` methods are modelled from the spec (§4.3, §4.4):
`add` purely appends the record's rows to the group's columnar buffers, and
`store_data` issues one bulk insert per table of the group and reports any
storage failure to its caller.  `CoreDataVecs.db_ids` is referenced directly
by `import/mod.rs` (line 104), so the core group owns the identifier column
alongside the `core_data` and `admin_data` rows. -/

structure CoreDataVecs where
  db_ids : List String
  core_rows : List CoreRow
  admin_rows : List AdminRow
deriving DecidableEq

/-- Modelled from the spec: a freshly created core accumulator is empty (the
capacity hint is irrelevant to the contents). -/
def CoreDataVecs.new (_vector_size : Nat) : CoreDataVecs :=
  ⟨[], [], []⟩

/-- Modelled from the spec, §4.3: append the single core and admin rows (and
the identifier) for one record. -/
def CoreDataVecs.add_core_data (v : CoreDataVecs) (r : RorRecord) (d : String) : CoreDataVecs :=
  { db_ids := v.db_ids ++ [d]
  , core_rows := v.core_rows ++ [coreRowOf r d]
  , admin_rows := v.admin_rows ++ [adminRowOf r d] }

structure RequiredDataVecs where
  names_rows : List NameRow
  type_rows : List TypeRow
deriving DecidableEq

/-- Modelled from the spec: a freshly created required-group accumulator is empty. -/
def RequiredDataVecs.new (_vector_size : Nat) : RequiredDataVecs :=
  ⟨[], []⟩

/-- Modelled from the spec, §4.3: append the guaranteed-repeating rows (names,
types) for one record. -/
def RequiredDataVecs.add_required_data (v : RequiredDataVecs) (r : RorRecord) (d : String) :
    RequiredDataVecs :=
  { names_rows := v.names_rows ++ nameRowsOf r d
  , type_rows := v.type_rows ++ typeRowsOf r d }

structure NonRequiredDataVecs where
  locations_rows : List LocationRow
  external_ids_rows : List ExternalIdRow
  links_rows : List LinkRow
  relationships_rows : List RelRow
  domains_rows : List DomainRow
deriving DecidableEq

/-- Modelled from the spec: a freshly created optional-group accumulator is empty. -/
def NonRequiredDataVecs.new (_vector_size : Nat) : NonRequiredDataVecs :=
  ⟨[], [], [], [], []⟩

/-- Modelled from the spec, §4.3: append the optional-repeating rows
(locations, external ids, links, relationships, domains) for one record. -/
def NonRequiredDataVecs.add_non_required_data (v : NonRequiredDataVecs) (r : RorRecord)
    (d : String) : NonRequiredDataVecs :=
  { locations_rows := v.locations_rows ++ locationRowsOf r d
  , external_ids_rows := v.external_ids_rows ++ externalIdRowsOf r d
  , links_rows := v.links_rows ++ linkRowsOf r d
  , relationships_rows := v.relationships_rows ++ relationshipRowsOf r d
  , domains_rows := v.domains_rows ++ domainRowsOf r d }

/-- The three accumulator groups, in the order they are stored. -/
inductive FlushGroup where
  | core
  | required
  | nonRequired
deriving DecidableEq

/-- The rows successfully inserted into each of the nine tables. -/
structure Tables where
  core_data : List CoreRow
  admin_data : List AdminRow
  names : List NameRow
  locations : List LocationRow
  external_ids : List ExternalIdRow
  links : List LinkRow
  type_rows : List TypeRow
  relationships : List RelRow
  domains : List DomainRow
deriving DecidableEq

def Tables.empty : Tables :=
  ⟨[], [], [], [], [], [], [], [], []⟩

/-- The modelled storage state: the table contents, the indices of insert
statements that failed, a log of flush events (group, running count of
processed records) and the log of identifiers the loop accumulated (one entry
per record for which the three `add` calls ran). -/
structure Database where
  tables : Tables
  failed : List Nat
  flushLog : List (FlushGroup × Nat)
  processedLog : List String
  nextStmt : Nat
deriving DecidableEq

def Database.empty : Database :=
  ⟨Tables.empty, [], [], [], 0⟩

/-- Execute one insert statement against the storage oracle `st`: on success
the update `upd` is applied to the table contents; on failure nothing is
written and the statement index is recorded.  Returns the new state and
whether the statement succeeded. -/
def runStmt (st : Nat → Bool) (db : Database) (upd : Tables → Tables) : Database × Bool :=
  if st db.nextStmt then
    ({ db with tables := upd db.tables, nextStmt := db.nextStmt + 1 }, true)
  else
    ({ db with failed := db.failed ++ [db.nextStmt], nextStmt := db.nextStmt + 1 }, false)

/-- Modelled from the spec, §4.4: the core group's flush — one bulk insert per
owned table (`core_data`, then `admin_data`); a storage failure is returned to
the caller.  `processedAt` records the running count of processed records at
this flush, for the flush log. -/
def CoreDataVecs.store_data (v : CoreDataVecs) (st : Nat → Bool) (processedAt : Nat)
    (db : Database) : Database × Except String Unit :=
  let db0 := { db with flushLog := db.flushLog ++ [(FlushGroup.core, processedAt)] }
  let s1 := runStmt st db0 (fun t => { t with core_data := t.core_data ++ v.core_rows })
  let s2 := runStmt st s1.1 (fun t => { t with admin_data := t.admin_data ++ v.admin_rows })
  (s2.1, if s1.2 && s2.2 then Except.ok () else Except.error "insert failed")

/-- Modelled from the spec, §4.4: the required group's flush (`names`, then
`type`). -/
def RequiredDataVecs.store_data (v : RequiredDataVecs) (st : Nat → Bool) (processedAt : Nat)
    (db : Database) : Database × Except String Unit :=
  let db0 := { db with flushLog := db.flushLog ++ [(FlushGroup.required, processedAt)] }
  let s1 := runStmt st db0 (fun t => { t with names := t.names ++ v.names_rows })
  let s2 := runStmt st s1.1 (fun t => { t with type_rows := t.type_rows ++ v.type_rows })
  (s2.1, if s1.2 && s2.2 then Except.ok () else Except.error "insert failed")

/-- Modelled from the spec, §4.4: the optional group's flush (`locations`,
`external_ids`, `links`, `relationships`, `domains`). -/
def NonRequiredDataVecs.store_data (v : NonRequiredDataVecs) (st : Nat → Bool)
    (processedAt : Nat) (db : Database) : Database × Except String Unit :=
  let db0 := { db with flushLog := db.flushLog ++ [(FlushGroup.nonRequired, processedAt)] }
  let s1 := runStmt st db0
    (fun t => { t with locations := t.locations ++ v.locations_rows })
  let s2 := runStmt st s1.1
    (fun t => { t with external_ids := t.external_ids ++ v.external_ids_rows })
  let s3 := runStmt st s2.1 (fun t => { t with links := t.links ++ v.links_rows })
  let s4 := runStmt st s3.1
    (fun t => { t with relationships := t.relationships ++ v.relationships_rows })
  let s5 := runStmt st s4.1 (fun t => { t with domains := t.domains ++ v.domains_rows })
  (s5.1, if s1.2 && s2.2 && s3.2 && s4.2 && s5.2 then Except.ok ()
         else Except.error "insert failed")

/-- The state returned by the record loop: the storage state, the count `n`
reported at the last in-loop flush, and the three residual accumulators. -/
structure LoopOut where
  db : Database
  n : Nat
  cdv : CoreDataVecs
  rdv : RequiredDataVecs
  ndv : NonRequiredDataVecs

/-- The record loop of `import_data` (`import/mod.rs` lines 72–96): for each
record (with index `i`) extract its identifier and call `add` on all three
groups; break once `i > 1505`; when `(i+1)` is an exact multiple of
`vector_size`, store all three groups (each result discarded, as in the
source) and replace each group by a fresh empty one. -/
def importLoop (st : Nat → Bool) (vector_size : Nat) :
    List RorRecord → Nat → Nat → CoreDataVecs → RequiredDataVecs → NonRequiredDataVecs →
    Database → LoopOut
  | [], _i, n, cdv, rdv, ndv, db => ⟨db, n, cdv, rdv, ndv⟩
  | r :: rest, i, n, cdv, rdv, ndv, db =>
    let db_id := extract_id_from r.id
    let cdv := cdv.add_core_data r db_id
    let rdv := rdv.add_required_data r db_id
    let ndv := ndv.add_non_required_data r db_id
    let db := { db with processedLog := db.processedLog ++ [db_id] }
    if i > 1505 then ⟨db, n, cdv, rdv, ndv⟩
    else if (i + 1) % vector_size = 0 then
      let n := i + 1
      let db := (cdv.store_data st n db).1
      let cdv := CoreDataVecs.new vector_size
      let db := (rdv.store_data st n db).1
      let rdv := RequiredDataVecs.new vector_size
      let db := (ndv.store_data st n db).1
      let ndv := NonRequiredDataVecs.new vector_size
      importLoop st vector_size rest (i + 1) n cdv rdv ndv db
    else
      importLoop st vector_size rest (i + 1) n cdv rdv ndv db

/-- The post-decode part of `import_data` (`import/mod.rs` lines 61–106): run
the record loop with `vector_size = 200` starting from empty accumulators and
an empty database, then store the residual contents of all three groups (the
results again discarded), and return `Ok(())`. -/
def run_import (res : List RorRecord) (st : Nat → Bool) : Except AppError Unit × Database :=
  let vector_size := 200
  let cdv := CoreDataVecs.new vector_size
  let rdv := RequiredDataVecs.new vector_size
  let ndv := NonRequiredDataVecs.new vector_size
  let o := importLoop st vector_size res 0 0 cdv rdv ndv Database.empty
  let total := o.n + o.cdv.db_ids.length
  let db := (o.cdv.store_data st total o.db).1
  let db := (o.rdv.store_data st total db).1
  let db := (o.ndv.store_data st total db).1
  (Except.ok (), db)

/-- `import_data` (`import/mod.rs` lines 27–108): read the source file (the
outcome is the `read_result` parameter), return `AppError.IoErr` on failure;
parse the text into records (the `decode` parameter stands for
`serde_json::from_str`), return `AppError.SdErr` on failure; otherwise run the
batched import.  The second component is the storage state after the call —
`Database.empty` on either early return. -/
def import_data (read_result : Except IoError String)
    (decode : String → Except DecodeError (List RorRecord)) (st : Nat → Bool) :
    Except AppError Unit × Database :=
  match read_result with
  | Except.error e => (Except.error (AppError.IoErr e), Database.empty)
  | Except.ok data =>
    match decode data with
    | Except.error e => (Except.error (AppError.SdErr e), Database.empty)
    | Except.ok res => run_import res st

/-! ## Closed-form descriptions of a run

`fanX rs` is the full fan-out of a record sequence into table `X`;
`midsIn i len` lists the running counts in `(i, i + len]` that are exact
multiples of the batch size 200; `flushTriple m` is the sequence of flush
events of the three groups at running count `m`. -/

def fanCore (rs : List RorRecord) : List CoreRow :=
  rs.map (fun r => coreRowOf r (dbIdOf r))

def fanAdmin (rs : List RorRecord) : List AdminRow :=
  rs.map (fun r => adminRowOf r (dbIdOf r))

def fanNames (rs : List RorRecord) : List NameRow :=
  rs.flatMap (fun r => nameRowsOf r (dbIdOf r))

def fanTypes (rs : List RorRecord) : List TypeRow :=
  rs.flatMap (fun r => typeRowsOf r (dbIdOf r))

def fanLocations (rs : List RorRecord) : List LocationRow :=
  rs.flatMap (fun r => locationRowsOf r (dbIdOf r))

def fanExternalIds (rs : List RorRecord) : List ExternalIdRow :=
  rs.flatMap (fun r => externalIdRowsOf r (dbIdOf r))

def fanLinks (rs : List RorRecord) : List LinkRow :=
  rs.flatMap (fun r => linkRowsOf r (dbIdOf r))

def fanRelationships (rs : List RorRecord) : List RelRow :=
  rs.flatMap (fun r => relationshipRowsOf r (dbIdOf r))

def fanDomains (rs : List RorRecord) : List DomainRow :=
  rs.flatMap (fun r => domainRowsOf r (dbIdOf r))

/-- The flush events of one cadence point: the three groups are flushed
sequentially — core, then required, then non-required — at running count `m`. -/
def flushTriple (m : Nat) : List (FlushGroup × Nat) :=
  [(FlushGroup.core, m), (FlushGroup.required, m), (FlushGroup.nonRequired, m)]

/-- The running counts in the interval `(i, i + len]` that are exact multiples
of the batch size 200, in increasing order. -/
def midsIn (i : Nat) : Nat → List Nat
  | 0 => []
  | len + 1 => (if (i + 1) % 200 = 0 then [i + 1] else []) ++ midsIn (i + 1) len

/-! ## The nine-table schema of `transform/org_table_code.rs`, as data

Each `create table` statement of `recreate_org_tables` is transcribed into a
`TableDef`: column names, column types, nullability, whether the column is the
primary key, and whether the table carries an index on its `id` column. -/

inductive ColType where
  | varchar
  | int
  | date
  | bool
  | real
deriving DecidableEq

structure ColumnDef where
  name : String
  ctype : ColType
  nullable : Bool
  primary_key : Bool
deriving DecidableEq

structure TableDef where
  name : String
  columns : List ColumnDef
  has_id_index : Bool
deriving DecidableEq

/-- A non-null, non-key column. -/
def col (name : String) (ctype : ColType) : ColumnDef :=
  ⟨name, ctype, false, false⟩

/-- A nullable column. -/
def colNull (name : String) (ctype : ColType) : ColumnDef :=
  ⟨name, ctype, true, false⟩

/-- A primary-key column. -/
def colPK (name : String) (ctype : ColType) : ColumnDef :=
  ⟨name, ctype, false, true⟩

/-- The nine tables created by `recreate_org_tables`
(`transform/org_table_code.rs`, lines 3–141), in creation order. -/
def org_tables : List TableDef :=
  [ ⟨"core_data",
      [ colPK "id" ColType.varchar
      , col "ror_full_id" ColType.varchar
      , col "ror_name" ColType.varchar
      , col "status" ColType.varchar
      , colNull "established" ColType.int
      , colNull "location" ColType.varchar
      , colNull "country_code" ColType.varchar ], false⟩
  , ⟨"admin_data",
      [ colPK "id" ColType.varchar
      , col "ror_name" ColType.varchar
      , col "n_locs" ColType.int
      , col "n_labels" ColType.int
      , col "n_aliases" ColType.int
      , col "n_acronyms" ColType.int
      , col "n_names" ColType.int
      , col "n_langcodes" ColType.int
      , col "n_isni" ColType.int
      , col "n_grid" ColType.int
      , col "n_fundref" ColType.int
      , col "n_wikidata" ColType.int
      , col "n_wikipaedia" ColType.int
      , col "n_website" ColType.int
      , col "n_types" ColType.int
      , col "n_relrels" ColType.int
      , col "n_parrels" ColType.int
      , col "n_chrels" ColType.int
      , col "n_sucrels" ColType.int
      , col "n_predrels" ColType.int
      , col "n_doms" ColType.int
      , col "created" ColType.date
      , col "cr_schema" ColType.varchar
      , col "last_modified" ColType.date
      , col "lm_schema" ColType.varchar ], false⟩
  , ⟨"names",
      [ col "id" ColType.varchar
      , col "value" ColType.varchar
      , col "name_type" ColType.int
      , col "is_ror_name" ColType.bool
      , colNull "lang_code" ColType.varchar
      , colNull "script_code" ColType.varchar ], true⟩
  , ⟨"locations",
      [ col "id" ColType.varchar
      , col "ror_name" ColType.varchar
      , colNull "geonames_id" ColType.int
      , colNull "geonames_name" ColType.varchar
      , colNull "lat" ColType.real
      , colNull "lng" ColType.real
      , colNull "country_code" ColType.varchar
      , colNull "country_name" ColType.varchar ], true⟩
  , ⟨"external_ids",
      [ col "id" ColType.varchar
      , col "ror_name" ColType.varchar
      , col "id_type" ColType.int
      , col "id_value" ColType.varchar
      , col "is_preferred" ColType.bool ], true⟩
  , ⟨"links",
      [ col "id" ColType.varchar
      , col "ror_name" ColType.varchar
      , col "link_type" ColType.int
      , col "link" ColType.varchar ], true⟩
  , ⟨"type",
      [ col "id" ColType.varchar
      , col "ror_name" ColType.varchar
      , col "org_type" ColType.int ], true⟩
  , ⟨"relationships",
      [ col "id" ColType.varchar
      , col "ror_name" ColType.varchar
      , col "rel_type" ColType.int
      , col "related_id" ColType.varchar
      , col "related_name" ColType.varchar ], true⟩
  , ⟨"domains",
      [ col "id" ColType.varchar
      , col "ror_name" ColType.varchar
      , col "domain" ColType.varchar ], true⟩ ]

/-! ## `setup/log_helper.rs`: the log-file path derivation

Rust strings are UTF-8 byte strings; byte-index slicing panics when the index
is out of range or not a character boundary, and in a debug build
`source_file_name.len() - 5` itself panics when the length is below 5 (in a
release build the subtraction wraps and the slice range check panics instead).
Strings are modelled as `List Char` with their UTF-8 byte sizes, and a panic
as `none`. -/

/-- The UTF-8 byte length of a string, `str::len()` in Rust. -/
def utf8Len (cs : List Char) : Nat :=
  (cs.map Char.utf8Size).sum

/-- Byte slicing `&s[..k]`: the prefix of `cs` occupying exactly `k` bytes, or
`none` (a panic) when `k` is not a character boundary or exceeds the length. -/
def take_bytes : List Char → Nat → Option (List Char)
  | _, 0 => some []
  | [], _ + 1 => none
  | c :: cs, k + 1 =>
    if c.utf8Size ≤ k + 1 then (take_bytes cs (k + 1 - c.utf8Size)).map (fun t => c :: t)
    else none

/-- `get_log_file_path` (`setup/log_helper.rs`, lines 28–43).  The
`Local::now()` timestamp is the `datetime_string` parameter.  For a non-empty
`source_file_name` the source slices off its last 5 bytes
(`&source_file_name[..(source_file_name.len() - 5)]`); `none` models the panic
when that slice is invalid.  The final path joins the data folder and the
derived file name. -/
def get_log_file_path (datetime_string : List Char) (data_folder : List Char)
    (source_file_name : List Char) : Option (List Char) :=
  let log_file_name := "ror ".data ++ datetime_string ++ " ".data
  if source_file_name ≠ [] then
    if utf8Len source_file_name < 5 then none
    else
      match take_bytes source_file_name (utf8Len source_file_name - 5) with
      | none => none
      | some source_file =>
        some (data_folder ++ '/' :: (log_file_name ++ " from ".data ++ source_file ++ ".log".data))
  else
    some (data_folder ++ '/' :: (log_file_name ++ " initialisation.log".data))

/-- `config_log` (`setup/log_helper.rs`, lines 45–84) builds the file appender
and initializes the logger; its file I/O is abstracted by the `fileOk` oracle,
an `Err(AppError::IoErr(..))` being returned when the appender cannot be
built.  The handle is modelled as the path itself. -/
def config_log (fileOk : List Char → Bool) (log_file_path : List Char) :
    Except AppError (List Char) :=
  if fileOk log_file_path then Except.ok log_file_path
  else Except.error (AppError.IoErr ⟨"could not build the file appender"⟩)

/-- `setup_log` (`setup/log_helper.rs`, lines 23–26): derive the log file path,
then configure the log; `none` models the panic propagated out of
`get_log_file_path`. -/
def setup_log (fileOk : List Char → Bool) (datetime_string : List Char)
    (data_folder : List Char) (source_file_name : List Char) :
    Option (Except AppError (List Char)) :=
  (get_log_file_path datetime_string data_folder source_file_name).map (config_log fileOk)

/-! ## `setup/mod.rs`: file-name compliance and data-date extraction

The two regexes are transcribed as executable matchers.
`get_data_date`'s pattern `20[0-9]{2}-?[01][0-9]-?[0-3][0-9]` is searched for
at each position from the left (the regex crate returns the leftmost match);
at a given position the match is deterministic because a `-` can never satisfy
the digit class that follows each optional hyphen.
`is_compliant_file_name`'s pattern
`^v[0-9]+(\.[0-9]+){0,2}(-| )20[0-9]{2}-?[01][0-9]-?[0-3][0-9]` is anchored at
the start; the greedy digit runs and dot groups are likewise deterministic
because digits, `.`, `-` and the space are disjoint. -/

/-- Consume one optional hyphen (`-?`), returning whether it was present. -/
def hyphenOpt : List Char → Bool × List Char
  | '-' :: t => (true, t)
  | t => (false, t)

/-- Match `20[0-9]{2}-?[01][0-9]-?[0-3][0-9]` at the start of `cs`, returning
the matched text (`caps[0]`). -/
def match_date_at (cs : List Char) : Option (List Char) :=
  match cs with
  | c1 :: c2 :: c3 :: c4 :: r1 =>
    if c1 == '2' && c2 == '0' && c3.isDigit && c4.isDigit then
      let h1 := hyphenOpt r1
      match h1.2 with
      | m1 :: m2 :: r3 =>
        if (m1 == '0' || m1 == '1') && m2.isDigit then
          let h2 := hyphenOpt r3
          match h2.2 with
          | d1 :: d2 :: _ =>
            if (d1 == '0' || d1 == '1' || d1 == '2' || d1 == '3') && d2.isDigit then
              some ([c1, c2, c3, c4] ++ (if h1.1 then ['-'] else [])
                ++ [m1, m2] ++ (if h2.1 then ['-'] else []) ++ [d1, d2])
            else none
          | _ => none
        else none
      | _ => none
    else none
  | _ => none

/-- The leftmost match of the date pattern in `cs` (`re.is_match` followed by
`re.captures(..)[0]`). -/
def find_date : List Char → Option (List Char)
  | [] => none
  | c :: t =>
    match match_date_at (c :: t) with
    | some m => some m
    | none => find_date t

def digitVal (c : Char) : Nat :=
  c.toNat - '0'.toNat

/-- Days in a month, with the Gregorian leap rule — the validation performed
by `NaiveDate::parse_from_str`. -/
def daysInMonth (y m : Nat) : Nat :=
  if m = 2 then (if y % 4 = 0 ∧ (y % 100 ≠ 0 ∨ y % 400 = 0) then 29 else 28)
  else if m = 4 ∨ m = 6 ∨ m = 9 ∨ m = 11 then 30
  else 31

/-- `y-m-d` is a real calendar date. -/
def isValidDate (y m d : Nat) : Prop :=
  1 ≤ m ∧ m ≤ 12 ∧ 1 ≤ d ∧ d ≤ daysInMonth y m

instance (y m d : Nat) : Decidable (isValidDate y m d) := by
  unfold isValidDate
  infer_instance

/-- `NaiveDate::parse_from_str(s, "%Y%m%d")`: exactly eight digits encoding a
valid calendar date. -/
def parse_ymd (cs : List Char) : Option (Nat × Nat × Nat) :=
  match cs with
  | [y1, y2, y3, y4, m1, m2, d1, d2] =>
    if y1.isDigit && y2.isDigit && y3.isDigit && y4.isDigit
        && m1.isDigit && m2.isDigit && d1.isDigit && d2.isDigit then
      let y := ((digitVal y1 * 10 + digitVal y2) * 10 + digitVal y3) * 10 + digitVal y4
      let m := digitVal m1 * 10 + digitVal m2
      let d := digitVal d1 * 10 + digitVal d2
      if isValidDate y m d then some (y, m, d) else none
    else none
  | _ => none

def pad2 (n : Nat) : List Char :=
  [Nat.digitChar (n / 10 % 10), Nat.digitChar (n % 10)]

def pad4 (n : Nat) : List Char :=
  [Nat.digitChar (n / 1000 % 10), Nat.digitChar (n / 100 % 10),
   Nat.digitChar (n / 10 % 10), Nat.digitChar (n % 10)]

/-- `NaiveDate::to_string()`: the ISO `YYYY-MM-DD` rendering. -/
def isoDate (y m d : Nat) : List Char :=
  pad4 y ++ '-' :: pad2 m ++ '-' :: pad2 d

/-- `get_data_date` (`setup/mod.rs`, lines 307–323): find the date pattern,
drop the hyphens from the match, parse it as `%Y%m%d`, and render the result
as ISO; the empty string is returned when the pattern is absent or the digits
do not form a real date. -/
def get_data_date (input : List Char) : List Char :=
  match find_date input with
  | none => []
  | some m =>
    match parse_ymd (m.filter (fun c => c != '-')) with
    | some ymd => isoDate ymd.1 ymd.2.1 ymd.2.2
    | none => []

/-- `[0-9]+`: require at least one digit, then consume the whole digit run. -/
def take_digits1 (cs : List Char) : Option (List Char) :=
  if (cs.takeWhile Char.isDigit).isEmpty then none else some (cs.dropWhile Char.isDigit)

/-- One iteration of `(\.[0-9]+)`: consume a dot followed by a digit run when
present, otherwise leave the input unchanged. -/
def dot_digits (cs : List Char) : List Char :=
  match cs with
  | '.' :: t =>
    match take_digits1 t with
    | some r => r
    | none => cs
  | _ => cs

/-- `is_compliant_file_name` (`setup/mod.rs`, lines 288–292): the anchored
pattern `^v[0-9]+(\.[0-9]+){0,2}(-| )` followed by the date pattern. -/
def is_compliant_file_name (input : List Char) : Bool :=
  match input with
  | 'v' :: rest =>
    match take_digits1 rest with
    | none => false
    | some r1 =>
      let r2 := dot_digits (dot_digits r1)
      match r2 with
      | '-' :: r3 => (match_date_at r3).isSome
      | ' ' :: r3 => (match_date_at r3).isSome
      | _ => false
  | _ => false

/-! ## Concrete inputs used by the closed theorems -/

/-- The always-succeeding storage oracle. -/
def stAllOk : Nat → Bool := fun _ => true

/-- The always-failing storage oracle. -/
def stAllFail : Nat → Bool := fun _ => false

/-- A minimal valid record (all optional collections empty) with a distinct
identifier. -/
def mkMinRec (k : Nat) : RorRecord :=
  { id := "https://ror.org/" ++ toString k
  , status := "active"
  , established := none
  , names := []
  , locations := []
  , external_ids := []
  , links := []
  , types := []
  , relationships := []
  , domains := [] }

/-- 1508 minimal records — one more than the early-termination guard admits. -/
def recs1508 : List RorRecord :=
  (List.range 1508).map mkMinRec

/-- A record with a non-trivial fan-out, for the counter-invariant witness. -/
def recFan : RorRecord :=
  { id := "https://ror.org/02baa5909"
  , status := "active"
  , established := some 1837
  , names :=
      [ ⟨"Example University", NameType.label, true, some "en", none⟩
      , ⟨"EU", NameType.acronym, false, none, none⟩
      , ⟨"Uni Example", NameType.alias, false, none, none⟩ ]
  , locations := [⟨some 2950159, "Berlin", some 52, some 13, some "DE", some "Germany"⟩]
  , external_ids := [⟨IdScheme.isni, "0000 0001 2096 9829", true⟩]
  , links := [⟨LinkKind.website, "https://example.edu"⟩]
  , types := ["education"]
  , relationships := [⟨RelKind.child, "https://ror.org/013cjyk83", "Example College"⟩]
  , domains := ["example.edu"]  }

/-- `midsIn i len` lists exactly the multiples of 200 in `(i, i + len]`. -/
lemma mem_midsIn (m i len : Nat) :
    m ∈ midsIn i len ↔ (i < m ∧ m ≤ i + len ∧ m % 200 = 0) := by
  induction len generalizing i with
  | zero => simp [midsIn]; omega
  | succ len ih =>
    rw [midsIn]
    by_cases hc : (i + 1) % 200 = 0 <;> simp [hc, ih] <;> omega

/-! ### How each flush affects the bookkeeping fields (any storage oracle) -/

lemma runStmt_fst_flushLog (st : Nat → Bool) (db : Database) (upd : Tables → Tables) :
    ((runStmt st db upd).1).flushLog = db.flushLog := by
  unfold runStmt
  split <;> rfl

lemma runStmt_fst_processedLog (st : Nat → Bool) (db : Database) (upd : Tables → Tables) :
    ((runStmt st db upd).1).processedLog = db.processedLog := by
  unfold runStmt
  split <;> rfl

lemma core_store_data_flushLog (v : CoreDataVecs) (st : Nat → Bool) (p : Nat)
    (db : Database) :
    ((v.store_data st p db).1).flushLog = db.flushLog ++ [(FlushGroup.core, p)] := by
  simp [CoreDataVecs.store_data, runStmt_fst_flushLog]

lemma core_store_data_processedLog (v : CoreDataVecs) (st : Nat → Bool) (p : Nat)
    (db : Database) :
    ((v.store_data st p db).1).processedLog = db.processedLog := by
  simp [CoreDataVecs.store_data, runStmt_fst_processedLog]

lemma required_store_data_flushLog (v : RequiredDataVecs) (st : Nat → Bool) (p : Nat)
    (db : Database) :
    ((v.store_data st p db).1).flushLog = db.flushLog ++ [(FlushGroup.required, p)] := by
  simp [RequiredDataVecs.store_data, runStmt_fst_flushLog]

lemma required_store_data_processedLog (v : RequiredDataVecs) (st : Nat → Bool)
    (p : Nat) (db : Database) :
    ((v.store_data st p db).1).processedLog = db.processedLog := by
  simp [RequiredDataVecs.store_data, runStmt_fst_processedLog]

lemma Nonrequired_store_data_flushLog (v : NonRequiredDataVecs) (st : Nat → Bool)
    (p : Nat) (db : Database) :
    ((v.store_data st p db).1).flushLog = db.flushLog ++ [(FlushGroup.nonRequired, p)] := by
  simp [NonRequiredDataVecs.store_data, runStmt_fst_flushLog]

lemma Nonrequired_store_data_processedLog (v : NonRequiredDataVecs) (st : Nat → Bool)
    (p : Nat) (db : Database) :
    ((v.store_data st p db).1).processedLog = db.processedLog := by
  simp [NonRequiredDataVecs.store_data, runStmt_fst_processedLog]

/-! ### Full characterization of each flush when every statement succeeds -/

lemma core_store_data_of_all {st : Nat → Bool} (hst : ∀ k, st k = true)
    (v : CoreDataVecs) (p : Nat) (db : Database) :
    v.store_data st p db =
      ({ db with
          tables := { db.tables with
            core_data := db.tables.core_data ++ v.core_rows
          , admin_data := db.tables.admin_data ++ v.admin_rows }
        , flushLog := db.flushLog ++ [(FlushGroup.core, p)]
        , nextStmt := db.nextStmt + 2 }, Except.ok ()) := by
  simp [CoreDataVecs.store_data, runStmt, hst]

lemma required_store_data_of_all {st : Nat → Bool} (hst : ∀ k, st k = true)
    (v : RequiredDataVecs) (p : Nat) (db : Database) :
    v.store_data st p db =
      ({ db with
          tables := { db.tables with
            names := db.tables.names ++ v.names_rows
          , type_rows := db.tables.type_rows ++ v.type_rows }
        , flushLog := db.flushLog ++ [(FlushGroup.required, p)]
        , nextStmt := db.nextStmt + 2 }, Except.ok ()) := by
  simp [RequiredDataVecs.store_data, runStmt, hst]

lemma Nonrequired_store_data_of_all {st : Nat → Bool} (hst : ∀ k, st k = true)
    (v : NonRequiredDataVecs) (p : Nat) (db : Database) :
    v.store_data st p db =
      ({ db with
          tables := { db.tables with
            locations := db.tables.locations ++ v.locations_rows
          , external_ids := db.tables.external_ids ++ v.external_ids_rows
          , links := db.tables.links ++ v.links_rows
          , relationships := db.tables.relationships ++ v.relationships_rows
          , domains := db.tables.domains ++ v.domains_rows }
        , flushLog := db.flushLog ++ [(FlushGroup.nonRequired, p)]
        , nextStmt := db.nextStmt + 5 }, Except.ok ()) := by
  simp [NonRequiredDataVecs.store_data, runStmt, hst]

/-! ### Characterization of the record loop -/

/-- The early-termination guard makes the loop depend only on the records up to
index 1506: starting from index `i`, at most `1507 - i` further records are
processed. -/
lemma importLoop_take (st : Nat → Bool) :
    ∀ (rest : List RorRecord) (i n : Nat) (cdv : CoreDataVecs) (rdv : RequiredDataVecs)
      (ndv : NonRequiredDataVecs) (db : Database), i ≤ 1506 →
      importLoop st 200 rest i n cdv rdv ndv db
        = importLoop st 200 (rest.take (1507 - i)) i n cdv rdv ndv db := by
  intro rest
  induction rest with
  | nil => intro i n cdv rdv ndv db _; rw [List.take_nil]
  | cons r rest ih =>
    intro i n cdv rdv ndv db hi
    have h7 : 1507 - i = (1506 - i) + 1 := by omega
    rw [h7, List.take_succ_cons]
    simp only [importLoop]
    by_cases hg : i > 1505
    · simp [hg]
    · by_cases hc : (i + 1) % 200 = 0
      · simp only [hg, if_false, hc, if_true, if_pos, if_neg, not_false_iff]
        have h6 : 1506 - i = 1507 - (i + 1) := by omega
        rw [h6]
        exact ih (i + 1) (i + 1) _ _ _ _ (by omega)
      · simp only [hg, if_false, hc, if_true, if_pos, if_neg, not_false_iff]
        have h6 : 1506 - i = 1507 - (i + 1) := by omega
        rw [h6]
        exact ih (i + 1) n _ _ _ _ (by omega)

/-- Bookkeeping of the loop, for any storage oracle: the processed log grows by
one identifier per record, the flush log grows by one triple of group events
at exactly the running counts that are multiples of 200, and the reported
count plus the residual core buffer size equals the number of records
processed. -/
lemma importLoop_logs (st : Nat → Bool) :
    ∀ (rest : List RorRecord) (i n : Nat) (cdv : CoreDataVecs) (rdv : RequiredDataVecs)
      (ndv : NonRequiredDataVecs) (db : Database),
      i + rest.length ≤ 1507 →
      n + cdv.db_ids.length = i →
      ((importLoop st 200 rest i n cdv rdv ndv db).db.processedLog
          = db.processedLog ++ rest.map dbIdOf)
      ∧ ((importLoop st 200 rest i n cdv rdv ndv db).db.flushLog
          = db.flushLog ++ (midsIn i rest.length).flatMap flushTriple)
      ∧ ((importLoop st 200 rest i n cdv rdv ndv db).n
          + (importLoop st 200 rest i n cdv rdv ndv db).cdv.db_ids.length
          = i + rest.length) := by
  intro rest
  induction rest with
  | nil =>
    intro i n cdv rdv ndv db h1 h2
    simp [importLoop, midsIn, h2]
  | cons r rest ih =>
    intro i n cdv rdv ndv db h1 h2
    simp only [importLoop]
    by_cases hg : i > 1505
    · have hr : rest = [] := by
        rw [← List.length_eq_zero]
        simp only [List.length_cons] at h1
        omega
      subst hr
      simp only [hg, if_true, if_pos]
      refine ⟨by simp [dbIdOf], ?_, ?_⟩
      · have hi : i = 1506 := by simp only [List.length_cons] at h1; omega
        subst hi
        simp [midsIn]
      · simp [CoreDataVecs.add_core_data]
        omega
    · by_cases hc : (i + 1) % 200 = 0
      · simp only [hg, hc, if_false, if_true, if_pos, if_neg, not_false_iff]
        have hA : (i + 1) + rest.length ≤ 1507 := by
          simp only [List.length_cons] at h1; omega
        have hB : (i + 1) + (CoreDataVecs.new 200).db_ids.length = i + 1 := by
          simp [CoreDataVecs.new]
        refine ⟨?_, ?_, ?_⟩
        · rw [(ih (i + 1) (i + 1) (CoreDataVecs.new 200) (RequiredDataVecs.new 200)
            (NonRequiredDataVecs.new 200) _ hA hB).1]
          rw [Nonrequired_store_data_processedLog,
            required_store_data_processedLog,
            core_store_data_processedLog]
          simp [dbIdOf]
        · rw [(ih (i + 1) (i + 1) (CoreDataVecs.new 200) (RequiredDataVecs.new 200)
            (NonRequiredDataVecs.new 200) _ hA hB).2.1]
          rw [Nonrequired_store_data_flushLog,
            required_store_data_flushLog,
            core_store_data_flushLog]
          simp only [List.length_cons, midsIn, hc, if_true, if_pos,
            List.flatMap_append, List.flatMap_cons, List.flatMap_nil, flushTriple]
          simp [List.append_assoc]
        · rw [(ih (i + 1) (i + 1) (CoreDataVecs.new 200) (RequiredDataVecs.new 200)
            (NonRequiredDataVecs.new 200) _ hA hB).2.2]
          simp only [List.length_cons]
          omega
      · simp only [hg, hc, if_false, if_true, if_pos, if_neg, not_false_iff]
        have hA : (i + 1) + rest.length ≤ 1507 := by
          simp only [List.length_cons] at h1; omega
        have hB : n + (cdv.add_core_data r (extract_id_from r.id)).db_ids.length = i + 1 := by
          simp [CoreDataVecs.add_core_data]
          omega
        refine ⟨?_, ?_, ?_⟩
        · rw [(ih (i + 1) n (cdv.add_core_data r (extract_id_from r.id)) _ _ _ hA hB).1]
          simp [dbIdOf]
        · rw [(ih (i + 1) n (cdv.add_core_data r (extract_id_from r.id)) _ _ _ hA hB).2.1]
          simp only [List.length_cons, midsIn, hc, if_false, if_neg, not_false_iff]
          simp
        · rw [(ih (i + 1) n (cdv.add_core_data r (extract_id_from r.id)) _ _ _ hA hB).2.2]
          simp only [List.length_cons]
          omega

/-- Table contents of the loop when every insert statement succeeds: for each
table, the rows already stored plus the rows still buffered equal the initial
ones plus the full fan-out of the processed records — no record is lost or
duplicated at a batch boundary — and no statement fails. -/
lemma importLoop_tables {st : Nat → Bool} (hst : ∀ k, st k = true) :
    ∀ (rest : List RorRecord) (i n : Nat) (cdv : CoreDataVecs) (rdv : RequiredDataVecs)
      (ndv : NonRequiredDataVecs) (db : Database),
      i + rest.length ≤ 1507 →
      ((importLoop st 200 rest i n cdv rdv ndv db).db.tables.core_data
          ++ (importLoop st 200 rest i n cdv rdv ndv db).cdv.core_rows
        = db.tables.core_data ++ cdv.core_rows ++ fanCore rest)
      ∧ ((importLoop st 200 rest i n cdv rdv ndv db).db.tables.admin_data
          ++ (importLoop st 200 rest i n cdv rdv ndv db).cdv.admin_rows
        = db.tables.admin_data ++ cdv.admin_rows ++ fanAdmin rest)
      ∧ ((importLoop st 200 rest i n cdv rdv ndv db).db.tables.names
          ++ (importLoop st 200 rest i n cdv rdv ndv db).rdv.names_rows
        = db.tables.names ++ rdv.names_rows ++ fanNames rest)
      ∧ ((importLoop st 200 rest i n cdv rdv ndv db).db.tables.type_rows
          ++ (importLoop st 200 rest i n cdv rdv ndv db).rdv.type_rows
        = db.tables.type_rows ++ rdv.type_rows ++ fanTypes rest)
      ∧ ((importLoop st 200 rest i n cdv rdv ndv db).db.tables.locations
          ++ (importLoop st 200 rest i n cdv rdv ndv db).ndv.locations_rows
        = db.tables.locations ++ ndv.locations_rows ++ fanLocations rest)
      ∧ ((importLoop st 200 rest i n cdv rdv ndv db).db.tables.external_ids
          ++ (importLoop st 200 rest i n cdv rdv ndv db).ndv.external_ids_rows
        = db.tables.external_ids ++ ndv.external_ids_rows ++ fanExternalIds rest)
      ∧ ((importLoop st 200 rest i n cdv rdv ndv db).db.tables.links
          ++ (importLoop st 200 rest i n cdv rdv ndv db).ndv.links_rows
        = db.tables.links ++ ndv.links_rows ++ fanLinks rest)
      ∧ ((importLoop st 200 rest i n cdv rdv ndv db).db.tables.relationships
          ++ (importLoop st 200 rest i n cdv rdv ndv db).ndv.relationships_rows
        = db.tables.relationships ++ ndv.relationships_rows ++ fanRelationships rest)
      ∧ ((importLoop st 200 rest i n cdv rdv ndv db).db.tables.domains
          ++ (importLoop st 200 rest i n cdv rdv ndv db).ndv.domains_rows
        = db.tables.domains ++ ndv.domains_rows ++ fanDomains rest)
      ∧ (importLoop st 200 rest i n cdv rdv ndv db).db.failed = db.failed := by
  intro rest
  induction rest with
  | nil =>
    intro i n cdv rdv ndv db h1
    simp [importLoop, fanCore, fanAdmin, fanNames, fanTypes, fanLocations, fanExternalIds,
      fanLinks, fanRelationships, fanDomains]
  | cons r rest ih =>
    intro i n cdv rdv ndv db h1
    simp only [importLoop]
    by_cases hg : i > 1505
    · have hr : rest = [] := by
        rw [← List.length_eq_zero]
        simp only [List.length_cons] at h1
        omega
      subst hr
      simp [hg, CoreDataVecs.add_core_data, RequiredDataVecs.add_required_data,
        NonRequiredDataVecs.add_non_required_data, fanCore, fanAdmin, fanNames, fanTypes,
        fanLocations, fanExternalIds, fanLinks, fanRelationships, fanDomains, dbIdOf]
    · by_cases hc : (i + 1) % 200 = 0
      · simp only [hg, hc, if_false, if_true, if_pos, if_neg, not_false_iff]
        simp only [core_store_data_of_all hst, required_store_data_of_all hst,
          Nonrequired_store_data_of_all hst]
        have hA : (i + 1) + rest.length ≤ 1507 := by
          simp only [List.length_cons] at h1; omega
        refine ⟨?_, ?_, ?_, ?_, ?_, ?_, ?_, ?_, ?_, ?_⟩ <;>
        · first
          | rw [(ih (i + 1) (i + 1) (CoreDataVecs.new 200) (RequiredDataVecs.new 200)
                (NonRequiredDataVecs.new 200) _ hA).1]
          | rw [(ih (i + 1) (i + 1) (CoreDataVecs.new 200) (RequiredDataVecs.new 200)
                (NonRequiredDataVecs.new 200) _ hA).2.1]
          | rw [(ih (i + 1) (i + 1) (CoreDataVecs.new 200) (RequiredDataVecs.new 200)
                (NonRequiredDataVecs.new 200) _ hA).2.2.1]
          | rw [(ih (i + 1) (i + 1) (CoreDataVecs.new 200) (RequiredDataVecs.new 200)
                (NonRequiredDataVecs.new 200) _ hA).2.2.2.1]
          | rw [(ih (i + 1) (i + 1) (CoreDataVecs.new 200) (RequiredDataVecs.new 200)
                (NonRequiredDataVecs.new 200) _ hA).2.2.2.2.1]
          | rw [(ih (i + 1) (i + 1) (CoreDataVecs.new 200) (RequiredDataVecs.new 200)
                (NonRequiredDataVecs.new 200) _ hA).2.2.2.2.2.1]
          | rw [(ih (i + 1) (i + 1) (CoreDataVecs.new 200) (RequiredDataVecs.new 200)
                (NonRequiredDataVecs.new 200) _ hA).2.2.2.2.2.2.1]
          | rw [(ih (i + 1) (i + 1) (CoreDataVecs.new 200) (RequiredDataVecs.new 200)
                (NonRequiredDataVecs.new 200) _ hA).2.2.2.2.2.2.2.1]
          | rw [(ih (i + 1) (i + 1) (CoreDataVecs.new 200) (RequiredDataVecs.new 200)
                (NonRequiredDataVecs.new 200) _ hA).2.2.2.2.2.2.2.2.1]
          | rw [(ih (i + 1) (i + 1) (CoreDataVecs.new 200) (RequiredDataVecs.new 200)
                (NonRequiredDataVecs.new 200) _ hA).2.2.2.2.2.2.2.2.2]
          try simp [CoreDataVecs.new, RequiredDataVecs.new, NonRequiredDataVecs.new,
              CoreDataVecs.add_core_data, RequiredDataVecs.add_required_data,
              NonRequiredDataVecs.add_non_required_data, fanCore, fanAdmin, fanNames,
              fanTypes, fanLocations, fanExternalIds, fanLinks, fanRelationships,
              fanDomains, dbIdOf, List.append_assoc]
      · simp only [hg, hc, if_false, if_true, if_pos, if_neg, not_false_iff]
        have hA : (i + 1) + rest.length ≤ 1507 := by
          simp only [List.length_cons] at h1; omega
        refine ⟨?_, ?_, ?_, ?_, ?_, ?_, ?_, ?_, ?_, ?_⟩ <;>
        · first
          | rw [(ih (i + 1) n _ _ _ _ hA).1]
          | rw [(ih (i + 1) n _ _ _ _ hA).2.1]
          | rw [(ih (i + 1) n _ _ _ _ hA).2.2.1]
          | rw [(ih (i + 1) n _ _ _ _ hA).2.2.2.1]
          | rw [(ih (i + 1) n _ _ _ _ hA).2.2.2.2.1]
          | rw [(ih (i + 1) n _ _ _ _ hA).2.2.2.2.2.1]
          | rw [(ih (i + 1) n _ _ _ _ hA).2.2.2.2.2.2.1]
          | rw [(ih (i + 1) n _ _ _ _ hA).2.2.2.2.2.2.2.1]
          | rw [(ih (i + 1) n _ _ _ _ hA).2.2.2.2.2.2.2.2.1]
          | rw [(ih (i + 1) n _ _ _ _ hA).2.2.2.2.2.2.2.2.2]
          try simp [CoreDataVecs.add_core_data, RequiredDataVecs.add_required_data,
              NonRequiredDataVecs.add_non_required_data, fanCore, fanAdmin, fanNames,
              fanTypes, fanLocations, fanExternalIds, fanLinks, fanRelationships,
              fanDomains, dbIdOf, List.append_assoc]

/-- Logs of a full run, for any storage oracle: the processed log holds exactly
the identifiers of the first `min L 1507` records, and the flush log is the
in-loop flush triples at the running counts that are multiples of 200,
followed by exactly one final flush triple at the total processed count. -/
lemma run_import_logs (res : List RorRecord) (st : Nat → Bool) :
    (run_import res st).2.processedLog = (res.take 1507).map dbIdOf
    ∧ (run_import res st).2.flushLog
        = (midsIn 0 (min res.length 1507)).flatMap flushTriple
          ++ flushTriple (min res.length 1507) := by
  have h1 : 0 + (res.take 1507).length ≤ 1507 := by
    simp [List.length_take]
  have h2 : (0 : Nat) + (CoreDataVecs.new 200).db_ids.length = 0 := by
    simp [CoreDataVecs.new]
  have hlen : (res.take 1507).length = min res.length 1507 := by
    simp [List.length_take, Nat.min_comm]
  obtain ⟨hp, hf, hn⟩ := importLoop_logs st (res.take 1507) 0 0 (CoreDataVecs.new 200)
    (RequiredDataVecs.new 200) (NonRequiredDataVecs.new 200) Database.empty h1 h2
  simp only [run_import]
  rw [importLoop_take st res 0 0 _ _ _ _ (by omega)]
  simp only [Nat.sub_zero]
  constructor
  · rw [Nonrequired_store_data_processedLog,
      required_store_data_processedLog,
      core_store_data_processedLog, hp]
    simp [Database.empty]
  · rw [Nonrequired_store_data_flushLog,
      required_store_data_flushLog,
      core_store_data_flushLog, hf, hn]
    rw [hlen] at hn ⊢
    simp [Database.empty, flushTriple, List.append_assoc, hn]

/-- Table contents of a full run when every insert statement succeeds: each of
the nine tables holds exactly the fan-out of the first `min L 1507` records
(in order), no statement fails, and the run returns `Ok(())`. -/
lemma run_import_tables (res : List RorRecord) (st : Nat → Bool) (hst : ∀ k, st k = true) :
    (run_import res st).2.tables.core_data = fanCore (res.take 1507)
    ∧ (run_import res st).2.tables.admin_data = fanAdmin (res.take 1507)
    ∧ (run_import res st).2.tables.names = fanNames (res.take 1507)
    ∧ (run_import res st).2.tables.type_rows = fanTypes (res.take 1507)
    ∧ (run_import res st).2.tables.locations = fanLocations (res.take 1507)
    ∧ (run_import res st).2.tables.external_ids = fanExternalIds (res.take 1507)
    ∧ (run_import res st).2.tables.links = fanLinks (res.take 1507)
    ∧ (run_import res st).2.tables.relationships = fanRelationships (res.take 1507)
    ∧ (run_import res st).2.tables.domains = fanDomains (res.take 1507)
    ∧ (run_import res st).2.failed = []
    ∧ (run_import res st).1 = Except.ok () := by
  have h1 : 0 + (res.take 1507).length ≤ 1507 := by
    simp [List.length_take]
  obtain ⟨e1, e2, e3, e4, e5, e6, e7, e8, e9, e10⟩ := importLoop_tables hst (res.take 1507) 0 0
    (CoreDataVecs.new 200) (RequiredDataVecs.new 200) (NonRequiredDataVecs.new 200)
    Database.empty h1
  simp only [run_import]
  rw [importLoop_take st res 0 0 _ _ _ _ (by omega)]
  simp only [Nat.sub_zero]
  simp only [core_store_data_of_all hst, required_store_data_of_all hst,
    Nonrequired_store_data_of_all hst]
  simp only [Database.empty, Tables.empty, CoreDataVecs.new, RequiredDataVecs.new,
    NonRequiredDataVecs.new, List.nil_append, List.append_nil] at e1 e2 e3 e4 e5 e6 e7 e8 e9 e10
  simp [e1, e2, e3, e4, e5, e6, e7, e8, e9, e10, Database.empty, Tables.empty,
    CoreDataVecs.new, RequiredDataVecs.new, NonRequiredDataVecs.new]

/-- Filtering the fan-out of a record sequence down to one record's identifier
(optionally refined by a further predicate `p`) recovers exactly that record's
own rows, provided the identifiers are pairwise distinct — the cross-table
consistency argument. -/
lemma filter_flatMap_of_nodup {β : Type} (f : RorRecord → List β) (idOf : β → String)
    (p : β → Bool) (hid : ∀ r, ∀ b ∈ f r, idOf b = dbIdOf r) :
    ∀ (ls : List RorRecord), (ls.map dbIdOf).Nodup → ∀ r ∈ ls,
      (ls.flatMap f).filter (fun b => (idOf b == dbIdOf r) && p b) = (f r).filter p := by
  intro ls
  induction ls with
  | nil =>
    intro _ r hr
    simp at hr
  | cons a t ih =>
    intro hnd r hr
    rw [List.map_cons, List.nodup_cons] at hnd
    obtain ⟨hna, hnt⟩ := hnd
    rw [List.flatMap_cons, List.filter_append]
    rcases List.mem_cons.mp hr with h | h
    · subst h
      have h1 : (f r).filter (fun b => (idOf b == dbIdOf r) && p b) = (f r).filter p := by
        apply List.filter_congr
        intro b hb
        rw [hid r b hb]
        simp
      have h2 : (t.flatMap f).filter (fun b => (idOf b == dbIdOf r) && p b) = [] := by
        rw [List.filter_eq_nil_iff]
        intro b hb
        obtain ⟨r', hr', hbr'⟩ := List.mem_flatMap.mp hb
        have hb' : idOf b = dbIdOf r' := hid r' b hbr'
        have hne : dbIdOf r' ≠ dbIdOf r := by
          intro hcon
          exact hna (hcon ▸ List.mem_map_of_mem dbIdOf hr')
        simp only [Bool.and_eq_true, beq_iff_eq, not_and]
        intro heq
        exact absurd (hb' ▸ heq) hne
      rw [h1, h2, List.append_nil]
    · have h2 : (f a).filter (fun b => (idOf b == dbIdOf r) && p b) = [] := by
        rw [List.filter_eq_nil_iff]
        intro b hb
        have hba : idOf b = dbIdOf a := hid a b hb
        have hne : dbIdOf a ≠ dbIdOf r := by
          intro hcon
          exact hna (hcon ▸ List.mem_map_of_mem dbIdOf h)
        simp only [Bool.and_eq_true, beq_iff_eq, not_and]
        intro heq
        exact absurd (hba ▸ heq) hne
      rw [h2, ih hnt r h, List.nil_append]

/-! ## The claims -/

/-- C1 — evidence for the code bug: over a decoded sequence of 1508 records
(with the reference batch size 200 and a fully successful storage layer) the
run writes only 1507 CoreData rows, not 1508: the early-termination guard
`if i > 1505 { break; }` stops iteration before end-of-stream, so the claimed
equality «CoreData rows = L for every L» fails at L = 1508. -/
theorem claim_C1_coredata_rows_truncated :
    recs1508.length = 1508
    ∧ (run_import recs1508 stAllOk).2.tables.core_data.length = 1507 := by
  constructor
  · simp [recs1508]
  · rw [(run_import_tables recs1508 stAllOk (fun _ => rfl)).1]
    simp [fanCore, recs1508]

/-- C2 — evidence for the code bug: with a storage layer failing every insert
statement, the run over one record records nine failed statements (the three
final-flush groups issue 2 + 2 + 5 inserts) and yet `import_data` returns
`Ok(())`: the results of the `store_data` calls are discarded at lines 89–102
of `import/mod.rs`, so a storage failure is not propagated to the caller. -/
theorem claim_C2_storage_failure_swallowed :
    (import_data (Except.ok "[..]") (fun _ => Except.ok [mkMinRec 0]) stAllFail).1
        = Except.ok ()
    ∧ (import_data (Except.ok "[..]") (fun _ => Except.ok [mkMinRec 0]) stAllFail).2.failed
        = [0, 1, 2, 3, 4, 5, 6, 7, 8] := by
  constructor <;> rfl

/-- C3: when reading the source file fails, `import_data` returns the I/O
error, and when decoding fails, it returns the decode error; in both cases the
returned storage state is the untouched empty database — no row is ever
written for a run that fails to read or decode. -/
theorem claim_C3_read_decode_failures_abort_without_writes
    (decode : String → Except DecodeError (List RorRecord)) (st : Nat → Bool) :
    (∀ e : IoError,
        import_data (Except.error e) decode st
          = (Except.error (AppError.IoErr e), Database.empty))
    ∧ (∀ (data : String) (e : DecodeError), decode data = Except.error e →
        import_data (Except.ok data) decode st
          = (Except.error (AppError.SdErr e), Database.empty)) := by
  constructor
  · intro e
    rfl
  · intro data e h
    simp [import_data, h]

/-- Witness for C3: a concrete failed read and a concrete failed decode, each
aborting with the corresponding error and an empty database. -/
theorem claim_C3_witness :
    import_data (Except.error ⟨"file missing"⟩) (fun _ => Except.ok []) stAllOk
        = (Except.error (AppError.IoErr ⟨"file missing"⟩), Database.empty)
    ∧ import_data (Except.ok "zzz") (fun _ => Except.error ⟨"not an array"⟩) stAllOk
        = (Except.error (AppError.SdErr ⟨"not an array"⟩), Database.empty) :=
  ⟨(claim_C3_read_decode_failures_abort_without_writes (fun _ => Except.ok []) stAllOk).1
      ⟨"file missing"⟩,
   (claim_C3_read_decode_failures_abort_without_writes
      (fun _ => Except.error ⟨"not an array"⟩) stAllOk).2 "zzz" ⟨"not an array"⟩ rfl⟩

/-- C4: the early-termination guard stops record iteration once the zero-based
index exceeds 1505, before normal end-of-stream: for every decoded sequence
the loop body (which calls `add` on all three accumulator groups) runs for
exactly the first `min L 1507` records — records beyond the 1507th are never
accumulated. -/
theorem claim_C4_guard_processes_min_L_1507 (records : List RorRecord) (st : Nat → Bool) :
    (run_import records st).2.processedLog
        = (records.take 1507).map (fun r => extract_id_from r.id)
    ∧ (run_import records st).2.processedLog.length = min records.length 1507 := by
  have h := (run_import_logs records st).1
  refine ⟨h, ?_⟩
  rw [h]
  simp only [List.length_map, List.length_take]
  omega

/-- C5: the flush schedule of a run — all three accumulator groups are flushed
sequentially (core, then required, then non-required) exactly at the running
counts that are exact multiples of the batch size 200, and after iteration
ends all three groups are flushed exactly once more at the total processed
count, even when the remainder is zero. -/
theorem claim_C5_flush_schedule (records : List RorRecord) (st : Nat → Bool) :
    (run_import records st).2.flushLog
        = (midsIn 0 (min records.length 1507)).flatMap flushTriple
          ++ flushTriple (min records.length 1507)
    ∧ ∀ m, m ∈ midsIn 0 (min records.length 1507)
        ↔ (0 < m ∧ m ≤ min records.length 1507 ∧ m % 200 = 0) := by
  refine ⟨(run_import_logs records st).2, ?_⟩
  intro m
  simpa using mem_midsIn m 0 (min records.length 1507)

/-- C6: the cross-table counter invariant — for every AdminData row written by
a run (over pairwise-distinct canonical identifiers, with a fully successful
storage layer), each of its per-category counters equals the number of rows
bearing the same identifier in the corresponding detail table, across all
batch boundaries. -/
theorem claim_C6_admin_counters_match_rows (records : List RorRecord) (st : Nat → Bool)
    (hst : ∀ k, st k = true)
    (hnd : ((records.take 1507).map dbIdOf).Nodup) :
    ∀ admin ∈ (run_import records st).2.tables.admin_data,
      admin.n_locs = ((run_import records st).2.tables.locations.filter
          (fun row => row.id == admin.id)).length
      ∧ admin.n_labels = ((run_import records st).2.tables.names.filter
          (fun row => (row.id == admin.id) && (row.name_type == NameType.label))).length
      ∧ admin.n_aliases = ((run_import records st).2.tables.names.filter
          (fun row => (row.id == admin.id) && (row.name_type == NameType.alias))).length
      ∧ admin.n_acronyms = ((run_import records st).2.tables.names.filter
          (fun row => (row.id == admin.id) && (row.name_type == NameType.acronym))).length
      ∧ admin.n_names = ((run_import records st).2.tables.names.filter
          (fun row => row.id == admin.id)).length
      ∧ admin.n_langcodes = ((run_import records st).2.tables.names.filter
          (fun row => (row.id == admin.id) && row.lang_code.isSome)).length
      ∧ admin.n_isni = ((run_import records st).2.tables.external_ids.filter
          (fun row => (row.id == admin.id) && (row.id_type == IdScheme.isni))).length
      ∧ admin.n_grid = ((run_import records st).2.tables.external_ids.filter
          (fun row => (row.id == admin.id) && (row.id_type == IdScheme.grid))).length
      ∧ admin.n_fundref = ((run_import records st).2.tables.external_ids.filter
          (fun row => (row.id == admin.id) && (row.id_type == IdScheme.fundref))).length
      ∧ admin.n_wikidata = ((run_import records st).2.tables.external_ids.filter
          (fun row => (row.id == admin.id) && (row.id_type == IdScheme.wikidata))).length
      ∧ admin.n_wikipaedia = ((run_import records st).2.tables.links.filter
          (fun row => (row.id == admin.id) && (row.link_type == LinkKind.wikipaedia))).length
      ∧ admin.n_website = ((run_import records st).2.tables.links.filter
          (fun row => (row.id == admin.id) && (row.link_type == LinkKind.website))).length
      ∧ admin.n_types = ((run_import records st).2.tables.type_rows.filter
          (fun row => row.id == admin.id)).length
      ∧ admin.n_relrels = ((run_import records st).2.tables.relationships.filter
          (fun row => (row.id == admin.id) && (row.rel_type == RelKind.related))).length
      ∧ admin.n_parrels = ((run_import records st).2.tables.relationships.filter
          (fun row => (row.id == admin.id) && (row.rel_type == RelKind.parent))).length
      ∧ admin.n_chrels = ((run_import records st).2.tables.relationships.filter
          (fun row => (row.id == admin.id) && (row.rel_type == RelKind.child))).length
      ∧ admin.n_sucrels = ((run_import records st).2.tables.relationships.filter
          (fun row => (row.id == admin.id) && (row.rel_type == RelKind.successor))).length
      ∧ admin.n_predrels = ((run_import records st).2.tables.relationships.filter
          (fun row => (row.id == admin.id) && (row.rel_type == RelKind.predecessor))).length
      ∧ admin.n_doms = ((run_import records st).2.tables.domains.filter
          (fun row => row.id == admin.id)).length := by
  obtain ⟨e1, e2, e3, e4, e5, e6, e7, e8, e9, _, _⟩ := run_import_tables records st hst
  intro admin hadmin
  rw [e2] at hadmin
  simp only [fanAdmin, List.mem_map] at hadmin
  obtain ⟨r, hr, rfl⟩ := hadmin
  rw [e3, e4, e5, e6, e7, e8, e9]
  simp only [fanNames, fanTypes, fanLocations, fanExternalIds, fanLinks, fanRelationships,
    fanDomains, adminRowOf]
  have hidName : ∀ r', ∀ b ∈ nameRowsOf r' (dbIdOf r'), NameRow.id b = dbIdOf r' := by
    intro r' b hb
    simp only [nameRowsOf, List.mem_map] at hb
    obtain ⟨nm, _, rfl⟩ := hb
    rfl
  have hidType : ∀ r', ∀ b ∈ typeRowsOf r' (dbIdOf r'), TypeRow.id b = dbIdOf r' := by
    intro r' b hb
    simp only [typeRowsOf, List.mem_map] at hb
    obtain ⟨x, _, rfl⟩ := hb
    rfl
  have hidLoc : ∀ r', ∀ b ∈ locationRowsOf r' (dbIdOf r'), LocationRow.id b = dbIdOf r' := by
    intro r' b hb
    simp only [locationRowsOf, List.mem_map] at hb
    obtain ⟨x, _, rfl⟩ := hb
    rfl
  have hidExt : ∀ r', ∀ b ∈ externalIdRowsOf r' (dbIdOf r'),
      ExternalIdRow.id b = dbIdOf r' := by
    intro r' b hb
    simp only [externalIdRowsOf, List.mem_map] at hb
    obtain ⟨x, _, rfl⟩ := hb
    rfl
  have hidLink : ∀ r', ∀ b ∈ linkRowsOf r' (dbIdOf r'), LinkRow.id b = dbIdOf r' := by
    intro r' b hb
    simp only [linkRowsOf, List.mem_map] at hb
    obtain ⟨x, _, rfl⟩ := hb
    rfl
  have hidRel : ∀ r', ∀ b ∈ relationshipRowsOf r' (dbIdOf r'), RelRow.id b = dbIdOf r' := by
    intro r' b hb
    simp only [relationshipRowsOf, List.mem_map] at hb
    obtain ⟨x, _, rfl⟩ := hb
    rfl
  have hidDom : ∀ r', ∀ b ∈ domainRowsOf r' (dbIdOf r'), DomainRow.id b = dbIdOf r' := by
    intro r' b hb
    simp only [domainRowsOf, List.mem_map] at hb
    obtain ⟨x, _, rfl⟩ := hb
    rfl
  have hN := fun p => filter_flatMap_of_nodup (fun r' => nameRowsOf r' (dbIdOf r'))
    NameRow.id p hidName (records.take 1507) hnd r hr
  have hT := fun p => filter_flatMap_of_nodup (fun r' => typeRowsOf r' (dbIdOf r'))
    TypeRow.id p hidType (records.take 1507) hnd r hr
  have hL := fun p => filter_flatMap_of_nodup (fun r' => locationRowsOf r' (dbIdOf r'))
    LocationRow.id p hidLoc (records.take 1507) hnd r hr
  have hE := fun p => filter_flatMap_of_nodup (fun r' => externalIdRowsOf r' (dbIdOf r'))
    ExternalIdRow.id p hidExt (records.take 1507) hnd r hr
  have hK := fun p => filter_flatMap_of_nodup (fun r' => linkRowsOf r' (dbIdOf r'))
    LinkRow.id p hidLink (records.take 1507) hnd r hr
  have hR := fun p => filter_flatMap_of_nodup (fun r' => relationshipRowsOf r' (dbIdOf r'))
    RelRow.id p hidRel (records.take 1507) hnd r hr
  have hD := fun p => filter_flatMap_of_nodup (fun r' => domainRowsOf r' (dbIdOf r'))
    DomainRow.id p hidDom (records.take 1507) hnd r hr
  refine ⟨?_, ?_, ?_, ?_, ?_, ?_, ?_, ?_, ?_, ?_, ?_, ?_, ?_, ?_, ?_, ?_, ?_, ?_, ?_⟩
  · have h := hL (fun _ => true)
    simp only [Bool.and_true] at h
    rw [List.filter_true] at h
    rw [h]
    simp [locationRowsOf]
  · have h := hN (fun row => row.name_type == NameType.label)
    simp only [] at h
    rw [h]
    simp [nameRowsOf, List.filter_map, Function.comp_def]
  · have h := hN (fun row => row.name_type == NameType.alias)
    simp only [] at h
    rw [h]
    simp [nameRowsOf, List.filter_map, Function.comp_def]
  · have h := hN (fun row => row.name_type == NameType.acronym)
    simp only [] at h
    rw [h]
    simp [nameRowsOf, List.filter_map, Function.comp_def]
  · have h := hN (fun _ => true)
    simp only [Bool.and_true] at h
    rw [List.filter_true] at h
    rw [h]
    simp [nameRowsOf]
  · have h := hN (fun row => row.lang_code.isSome)
    simp only [] at h
    rw [h]
    simp [nameRowsOf, List.filter_map, Function.comp_def]
  · have h := hE (fun row => row.id_type == IdScheme.isni)
    simp only [] at h
    rw [h]
    simp [externalIdRowsOf, List.filter_map, Function.comp_def]
  · have h := hE (fun row => row.id_type == IdScheme.grid)
    simp only [] at h
    rw [h]
    simp [externalIdRowsOf, List.filter_map, Function.comp_def]
  · have h := hE (fun row => row.id_type == IdScheme.fundref)
    simp only [] at h
    rw [h]
    simp [externalIdRowsOf, List.filter_map, Function.comp_def]
  · have h := hE (fun row => row.id_type == IdScheme.wikidata)
    simp only [] at h
    rw [h]
    simp [externalIdRowsOf, List.filter_map, Function.comp_def]
  · have h := hK (fun row => row.link_type == LinkKind.wikipaedia)
    simp only [] at h
    rw [h]
    simp [linkRowsOf, List.filter_map, Function.comp_def]
  · have h := hK (fun row => row.link_type == LinkKind.website)
    simp only [] at h
    rw [h]
    simp [linkRowsOf, List.filter_map, Function.comp_def]
  · have h := hT (fun _ => true)
    simp only [Bool.and_true] at h
    rw [List.filter_true] at h
    rw [h]
    simp [typeRowsOf]
  · have h := hR (fun row => row.rel_type == RelKind.related)
    simp only [] at h
    rw [h]
    simp [relationshipRowsOf, List.filter_map, Function.comp_def]
  · have h := hR (fun row => row.rel_type == RelKind.parent)
    simp only [] at h
    rw [h]
    simp [relationshipRowsOf, List.filter_map, Function.comp_def]
  · have h := hR (fun row => row.rel_type == RelKind.child)
    simp only [] at h
    rw [h]
    simp [relationshipRowsOf, List.filter_map, Function.comp_def]
  · have h := hR (fun row => row.rel_type == RelKind.successor)
    simp only [] at h
    rw [h]
    simp [relationshipRowsOf, List.filter_map, Function.comp_def]
  · have h := hR (fun row => row.rel_type == RelKind.predecessor)
    simp only [] at h
    rw [h]
    simp [relationshipRowsOf, List.filter_map, Function.comp_def]
  · have h := hD (fun _ => true)
    simp only [Bool.and_true] at h
    rw [List.filter_true] at h
    rw [h]
    simp [domainRowsOf]

/-- Witness for C6 at a concrete run: two records with distinct identifiers,
one with a non-trivial fan-out; its admin row's location counter equals the
number of location rows carrying its identifier. -/
theorem claim_C6_witness :
    (adminRowOf recFan (dbIdOf recFan)).n_locs
      = ((run_import [recFan, mkMinRec 1] stAllOk).2.tables.locations.filter
          (fun row => row.id == (adminRowOf recFan (dbIdOf recFan)).id)).length :=
  (claim_C6_admin_counters_match_rows [recFan, mkMinRec 1] stAllOk (fun _ => rfl)
    (by decide) (adminRowOf recFan (dbIdOf recFan)) (by decide)).1

/-- C7: the identifier extractor is deterministic (two calls on the same full
identifier yield the same canonical identifier), an input that does not
contain the `/` separator returns the whole input as the best-effort trailing
token (no panic — the function is total), and the extracted token never
contains the separator. -/
theorem claim_C7_extract_id_deterministic (s : String) :
    extract_id_from s = extract_id_from s
    ∧ ('/' ∉ s.data → extract_id_from s = s)
    ∧ '/' ∉ (extract_id_from s).data := by
  refine ⟨rfl, ?_, ?_⟩
  · intro h
    unfold extract_id_from
    rw [List.takeWhile_eq_self_iff.mpr ?all, List.reverse_reverse]
    case all =>
      intro a ha
      rw [List.mem_reverse] at ha
      rw [bne_iff_ne]
      intro hcon
      exact h (hcon ▸ ha)
  · intro hmem
    have h2 : '/' ∈ (s.data.reverse.takeWhile (fun c => c != '/')) :=
      List.mem_reverse.mp hmem
    have h3 := List.mem_takeWhile_imp h2
    simp at h3

/-- Witness for C7: a concrete identifier without the separator is returned
whole. -/
theorem claim_C7_witness :
    extract_id_from (String.mk ['0', 'a', 'b', 'c']) = String.mk ['0', 'a', 'b', 'c'] :=
  (claim_C7_extract_id_deterministic (String.mk ['0', 'a', 'b', 'c'])).2.1 (by decide)

/-- C8: the normalized schema consists of exactly nine tables with the claimed
names; every table's first column is the canonical identifier `id`; `id` is
the primary key on `core_data` and `admin_data` and an indexed non-key column
on the seven detail tables; and `core_data` has exactly the seven claimed
columns — identifier (primary key), full identifier, display name, status,
nullable establishment year, nullable location text, nullable country code. -/
theorem claim_C8_schema_nine_tables :
    org_tables.map TableDef.name
      = ["core_data", "admin_data", "names", "locations", "external_ids", "links",
         "type", "relationships", "domains"]
    ∧ org_tables.length = 9
    ∧ (∀ t ∈ org_tables, (t.columns.head?.map ColumnDef.name) = some "id")
    ∧ (∀ t ∈ org_tables,
        ((t.columns.head?.map ColumnDef.primary_key = some true) ∧ t.has_id_index = false)
        ∨ ((t.columns.head?.map ColumnDef.primary_key = some false) ∧ t.has_id_index = true))
    ∧ org_tables.head? = some
        ⟨"core_data",
          [ ⟨"id", ColType.varchar, false, true⟩
          , ⟨"ror_full_id", ColType.varchar, false, false⟩
          , ⟨"ror_name", ColType.varchar, false, false⟩
          , ⟨"status", ColType.varchar, false, false⟩
          , ⟨"established", ColType.int, true, false⟩
          , ⟨"location", ColType.varchar, true, false⟩
          , ⟨"country_code", ColType.varchar, true, false⟩ ], false⟩ := by
  refine ⟨by decide, by decide, by decide, by decide, by decide⟩

/-- The byte-slice prefix exists exactly when the requested byte count is a
character boundary of the string. -/
lemma take_bytes_isSome_iff : ∀ (cs : List Char) (k : Nat),
    (take_bytes cs k).isSome = true ↔ ∃ n, utf8Len (cs.take n) = k := by
  intro cs
  induction cs with
  | nil =>
    intro k
    cases k with
    | zero =>
      simp only [take_bytes, Option.isSome_some]
      exact ⟨fun _ => ⟨0, by simp [utf8Len]⟩, fun _ => trivial⟩
    | succ k =>
      simp [take_bytes, utf8Len]
  | cons c t ih =>
    intro k
    cases k with
    | zero =>
      simp only [take_bytes, Option.isSome_some]
      exact ⟨fun _ => ⟨0, by simp [utf8Len]⟩, fun _ => trivial⟩
    | succ k =>
      simp only [take_bytes]
      by_cases h : c.utf8Size ≤ k + 1
      · rw [if_pos h]
        rw [show ∀ o : Option (List Char), ((o.map (fun t => c :: t)).isSome = true)
            = (o.isSome = true) from fun o => by cases o <;> simp]
        rw [ih (k + 1 - c.utf8Size)]
        constructor
        · rintro ⟨n, hn⟩
          refine ⟨n + 1, ?_⟩
          simp only [List.take_succ_cons, utf8Len, List.map_cons, List.sum_cons] at hn ⊢
          omega
        · rintro ⟨n, hn⟩
          cases n with
          | zero => simp [utf8Len] at hn
          | succ n =>
            refine ⟨n, ?_⟩
            simp only [List.take_succ_cons, utf8Len, List.map_cons, List.sum_cons] at hn ⊢
            omega
      · rw [if_neg h]
        simp only [Option.isSome_none, Bool.false_eq_true, false_iff, not_exists]
        intro n hn
        cases n with
        | zero => simp [utf8Len] at hn
        | succ n =>
          simp only [List.take_succ_cons, utf8Len, List.map_cons, List.sum_cons] at hn
          omega

/-- C9: `get_log_file_path` (and hence `setup_log`) is not total over string
inputs — for a non-empty source file name it slices off the last 5 bytes, so a
non-empty name shorter than 5 bytes panics (`none`), a name of at least 5
bytes returns normally exactly when byte position `len - 5` is a character
boundary, the empty name always returns normally, and `setup_log` panics
exactly when `get_log_file_path` does. -/
theorem claim_C9_log_path_not_total (dt folder cs : List Char) :
    (cs = [] → (get_log_file_path dt folder cs).isSome = true)
    ∧ (cs ≠ [] → utf8Len cs < 5 → get_log_file_path dt folder cs = none)
    ∧ (cs ≠ [] → 5 ≤ utf8Len cs →
        ((get_log_file_path dt folder cs).isSome = true
          ↔ ∃ n, utf8Len (cs.take n) = utf8Len cs - 5))
    ∧ (∀ fileOk, (setup_log fileOk dt folder cs = none ↔ get_log_file_path dt folder cs = none)) := by
  refine ⟨?_, ?_, ?_, ?_⟩
  · intro h
    subst h
    simp [get_log_file_path]
  · intro h1 h2
    simp [get_log_file_path, h1, h2]
  · intro h1 h2
    have h3 : ¬ utf8Len cs < 5 := by omega
    simp only [get_log_file_path, h1, ne_eq, not_false_iff, if_true, if_pos, h3, if_neg,
      if_false]
    rw [← take_bytes_isSome_iff]
    cases htb : take_bytes cs (utf8Len cs - 5) with
    | none => simp [htb]
    | some p => simp [htb]
  · intro fileOk
    unfold setup_log
    cases h : get_log_file_path dt folder cs <;> simp [h]

/-- Witness for C9: the one-byte name `"a"` panics; the six-byte ASCII name
`"x.json"` returns normally (byte 1 is a character boundary). -/
theorem claim_C9_witness :
    get_log_file_path [] [] ['a'] = none
    ∧ (get_log_file_path [] [] "x.json".data).isSome = true := by
  constructor
  · exact (claim_C9_log_path_not_total [] [] ['a']).2.1 (by decide) (by decide)
  · exact ((claim_C9_log_path_not_total [] [] "x.json".data).2.2.1 (by decide)
      (by decide)).mpr ⟨1, by decide⟩

/-- A successful `%Y%m%d` parse yields only real calendar dates. -/
lemma parse_ymd_valid (cs : List Char) (y m d : Nat) :
    parse_ymd cs = some (y, m, d) → isValidDate y m d := by
  intro h
  unfold parse_ymd at h
  split at h
  · split at h
    · dsimp only at h
      split at h
      · rename_i hvalid
        simp only [Option.some.injEq, Prod.mk.injEq] at h
        obtain ⟨h1, h2, h3⟩ := h
        subst h1
        subst h2
        subst h3
        exact hvalid
      · exact Option.noConfusion h
    · exact Option.noConfusion h
  · exact Option.noConfusion h


/-- C10: `get_data_date` is pure and total, and for every input returns either
the empty string or the ISO rendering of a real calendar date — never a
malformed date; moreover the file-name pattern of `is_compliant_file_name`
admits digit pairs that are not real dates (here month 19, day 39), and on
such a name `get_data_date` still returns the empty string. -/
theorem claim_C10_data_date_valid_or_empty :
    (∀ input : List Char, get_data_date input = []
        ∨ ∃ y m d, isValidDate y m d ∧ get_data_date input = isoDate y m d)
    ∧ is_compliant_file_name
        ['v', '1', '.', '5', '0', ' ', '2', '0', '2', '4', '-', '1', '9', '-', '3', '9',
         '.', 'j', 's', 'o', 'n'] = true
    ∧ get_data_date
        ['v', '1', '.', '5', '0', ' ', '2', '0', '2', '4', '-', '1', '9', '-', '3', '9',
         '.', 'j', 's', 'o', 'n'] = [] := by
  refine ⟨?_, by decide, by decide⟩
  intro input
  unfold get_data_date
  cases hf : find_date input with
  | none => exact Or.inl rfl
  | some mtxt =>
    dsimp only
    cases hp : parse_ymd (mtxt.filter (fun c => c != '-')) with
    | none => exact Or.inl rfl
    | some ymd =>
      right
      exact ⟨ymd.1, ymd.2.1, ymd.2.2,
        parse_ymd_valid _ ymd.1 ymd.2.1 ymd.2.2 (by rw [hp]), rfl⟩

end Ror1
